import Mathlib

/-!
Verification of the iTop report aggregation core (`itop_report.py`,
`pdf_generator.py`).  The SQL rollup queries and the two render paths are
shallowly embedded over an explicit in-memory database of tickets.  Dates are
modelled at day granularity (the query parameters are formatted as dates);
SLA timestamps are epoch seconds as integers; SQL three-valued logic on
nullable columns is modelled with `Option Bool`.
-/

namespace ItopReport

/-- Status strings as stored in the ticket tables. -/
abbrev Status := String

/-- The `ticket.finalclass` value; each concrete class has its own detail table
(`ticket_request`, `ticket_incident`, `change`), joined on `id`. -/
inductive FinalClass
  | UserRequest
  | Incident
  | Change
  | Problem
deriving DecidableEq, Repr

/-- Calendar date, compared lexicographically (valid dates only). -/
structure Date where
  y : Nat
  m : Nat
  d : Nat
deriving DecidableEq, Repr

def Date.ble (a b : Date) : Bool :=
  decide (a.y < b.y) ||
    (decide (a.y = b.y) &&
      (decide (a.m < b.m) || (decide (a.m = b.m) && decide (a.d ≤ b.d))))

def Date.blt (a b : Date) : Bool := !(Date.ble b a)

/-- One ticket row joined with its per-class detail row.  Nullable SQL
columns are `Option`-typed. -/
structure Ticket where
  id : Nat
  ref : String
  title : String
  finalclass : FinalClass
  status : Status
  startDate : Date
  lastUpdate : Date
  startEpoch : ℤ
  endEpoch : ℤ
  teamId : Nat
  agentId : Nat
  callerId : Nat
  approverId : Nat
  serviceId : Option Nat
  subcategoryId : Option Nat
  tto100Passed : Bool
  ttr100Passed : Bool
  ttoOverrun : Option ℤ
  ttrOverrun : Option ℤ
  ttoStarted : Option ℤ
  ttoStopped : Option ℤ
  ttrStopped : Option ℤ
  assignmentDate : Option Date
  resolutionDate : Option Date
  ttoDeadline : Option Date
  ttrDeadline : Option Date
deriving DecidableEq, Repr

/-- A `contact` table row (`finalclass` distinguishes teams from persons). -/
structure Contact where
  id : Nat
  name : String
  finalclass : String
deriving DecidableEq, Repr

/-- A `person` table row. -/
structure Person where
  id : Nat
  firstName : String
deriving DecidableEq, Repr

/-- The queried database.  Detail-table membership is determined by
`finalclass` (a `ticket_request` row exists exactly for `UserRequest`
tickets, and so on). -/
structure DB where
  tickets : List Ticket
  services : List (Nat × String)
  subcategories : List (Nat × String)
  contacts : List Contact
  persons : List Person
deriving Repr

/-- The period test `t.start_date >= start AND t.start_date < end`
(half-open interval). -/
def inPeriod (s e : Date) (t : Ticket) : Bool :=
  Date.ble s t.startDate && Date.blt t.startDate e

/-- SQL `OR` over nullable booleans (three-valued logic). -/
def sqlOr : Option Bool → Option Bool → Option Bool
  | some true, _ => some true
  | _, some true => some true
  | none, _ => none
  | _, none => none
  | some false, some false => some false

/-- A SQL `WHERE` keeps a row only when the condition is literally TRUE. -/
def sqlIsTrue : Option Bool → Bool
  | some true => true
  | _ => false

/-- The `tr.status` column seen through the `LEFT JOIN ticket_request` (NULL unless the
ticket is a `UserRequest`). -/
def trStatus (t : Ticket) : Option Status :=
  if t.finalclass = .UserRequest then some t.status else none

/-- The `ti.status` column seen through the `LEFT JOIN ticket_incident`. -/
def tiStatus (t : Ticket) : Option Status :=
  if t.finalclass = .Incident then some t.status else none

/-- The `c.status` column seen through the ``LEFT JOIN `change` ``. -/
def cStatus (t : Ticket) : Option Status :=
  if t.finalclass = .Change then some t.status else none

/-- Nullable comparison `x <> 'new'`. -/
def neqNew (o : Option Status) : Option Bool :=
  o.map (fun s => decide (s ≠ "new"))

/-- Row filter of `get_ticket_summary`: period, `finalclass <> 'Problem'`,
and `(tr.status <> 'new' OR ti.status <> 'new' OR c.status <> 'new')` under
three-valued logic. -/
def summaryRows (db : DB) (s e : Date) : List Ticket :=
  db.tickets.filter fun t =>
    decide (t.finalclass ≠ .Problem) && inPeriod s e t &&
      sqlIsTrue (sqlOr (sqlOr (neqNew (trStatus t)) (neqNew (tiStatus t)))
        (neqNew (cStatus t)))

/-- Result row of `get_ticket_summary`. -/
structure TicketSummary where
  total : Nat
  request_total : Nat
  change_total : Nat
  incident_total : Nat
deriving DecidableEq, Repr

def getTicketSummary (db : DB) (s e : Date) : TicketSummary :=
  let rows := summaryRows db s e
  { total := rows.length
    request_total := rows.countP (fun t => decide (t.finalclass = .UserRequest))
    change_total := rows.countP (fun t => decide (t.finalclass = .Change))
    incident_total := rows.countP (fun t => decide (t.finalclass = .Incident)) }

/-- Rows of `get_user_request_stats`: `ticket_request` joined to `ticket`,
period restricted, `tr.status <> 'new'`. -/
def requestRows (db : DB) (s e : Date) : List Ticket :=
  db.tickets.filter fun t =>
    decide (t.finalclass = .UserRequest) && inPeriod s e t &&
      decide (t.status ≠ "new")

/-- Rows of `get_incident_stats`. -/
def incidentRows (db : DB) (s e : Date) : List Ticket :=
  db.tickets.filter fun t =>
    decide (t.finalclass = .Incident) && inPeriod s e t &&
      decide (t.status ≠ "new")

/-- Rows of `get_change_stats`. -/
def changeRows (db : DB) (s e : Date) : List Ticket :=
  db.tickets.filter fun t =>
    decide (t.finalclass = .Change) && inPeriod s e t &&
      decide (t.status ≠ "new")

/-- Result row shared by the three status-breakdown queries. -/
structure StatusBreakdown where
  total : Nat
  resolved_total : Nat
  closed_total : Nat
  unresolved_total : Nat
deriving DecidableEq, Repr

/-- The four aggregates of the status-breakdown queries. -/
def statusBreakdownOf (rows : List Ticket) : StatusBreakdown :=
  { total := rows.length
    resolved_total :=
      rows.countP (fun t => decide (t.status = "closed") || decide (t.status = "resolved"))
    closed_total := rows.countP (fun t => decide (t.status = "closed"))
    unresolved_total :=
      rows.countP (fun t =>
        !(decide (t.status = "closed") || decide (t.status = "resolved"))) }

def getUserRequestStats (db : DB) (s e : Date) : StatusBreakdown :=
  statusBreakdownOf (requestRows db s e)

def getIncidentStats (db : DB) (s e : Date) : StatusBreakdown :=
  statusBreakdownOf (incidentRows db s e)

def getChangeStats (db : DB) (s e : Date) : StatusBreakdown :=
  statusBreakdownOf (changeRows db s e)

/-! Numeric formatting shared by the SQL `CONCAT(ROUND(x,2),'%')` columns and
the Python `f-string` `{x:.2f}` rendering. -/

/-- Two-digit zero padding (`DATE_FORMAT` `%m`, decimal fractions). -/
def pad2 (n : Nat) : String :=
  if n < 10 then "0" ++ toString n else toString n

/-- Half-up rounding of the quotient `a / b` for positive `b`:
`⌊a/b + 1/2⌋ = (2a + b) / (2b)` in floor division (the integer form keeps
every rate computation kernel-evaluable; `roundDiv_eq_round` below ties it
to the usual rounding on ℚ). -/
def roundDiv (a b : ℤ) : ℤ := (2 * a + b) / (2 * b)

/-- Display a count of hundredths with exactly two decimals, as
`ROUND(x, 2)` and `{x:.2f}` do. -/
def fmt2c (c : ℤ) : String :=
  (if c < 0 then "-" else "") ++ toString (c.natAbs / 100) ++ "." ++
    pad2 (c.natAbs % 100)

/-- The percentage `a / b * 100` rounded to two decimals, rendered
without the percent sign (`{x:.2f}`). -/
def pctNum (a b : ℤ) : String := fmt2c (roundDiv (a * 10000) b)

/-- Models `CONCAT(ROUND(a / b * 100, 2), '%')`. -/
def pctStr (a b : ℤ) : String := pctNum a b ++ "%"

/-- Models `ROUND(x / 60, 2)` in hundredths of a minute, for `x` seconds. -/
def minCents (x : ℤ) : ℤ := roundDiv (x * 100) 60

/-- Models `ROUND(AVG(l) / 60, 2)` in hundredths of a minute (NULL on an empty
column). -/
def avgMinCents (l : List ℤ) : Option ℤ :=
  if l.isEmpty then none
  else some (roundDiv (l.sum * 100) (60 * (l.length : ℤ)))

/-- Models `AVG` then `ROUND(· / 60, 2)`, displayed. -/
def avgMinStr (l : List ℤ) : Option String := (avgMinCents l).map fmt2c

/-- Models `MAX` then `ROUND(· / 60, 2)`, displayed. -/
def maxMinStr (l : List ℤ) : Option String :=
  l.max?.map fun m => fmt2c (minCents m)

/-- Grouping key of `DATE_FORMAT(start_date, '%Y-%m')`. -/
def monthKey (d : Date) : Nat × Nat := (d.y, d.m)

/-- Display string `DATE_FORMAT(start_date, '%Y年%m月')`. -/
def formatMonth (k : Nat × Nat) : String :=
  toString k.1 ++ "年" ++ pad2 k.2 ++ "月"

/-- Models `TIMESTAMPDIFF(SECOND, a, b)` over nullable timestamps. -/
def tdiff (a b : Option ℤ) : Option ℤ :=
  match a, b with
  | some x, some y => some (y - x)
  | _, _ => none

/-! The `(month, team/agent, ticket type)` time statistics
(`get_team_stats`, `get_person_stats`).  Both build the same
`UNION ALL` of requests, incidents and changes. -/

/-- One row of the union subquery of `get_team_stats` /
`get_person_stats` (the two unions differ only in whether `team_id` or
`agent_id` is projected; both ids are kept here). -/
structure URow where
  teamId : Nat
  agentId : Nat
  startDate : Date
  ticketType : String
  status : Status
  tto : Bool
  ttr : Bool
  responseTime : Option ℤ
  resolutionTime : Option ℤ
deriving DecidableEq, Repr

def requestURow (t : Ticket) : URow :=
  { teamId := t.teamId, agentId := t.agentId, startDate := t.startDate
    ticketType := "服务请求", status := t.status
    tto := t.tto100Passed, ttr := t.ttr100Passed
    responseTime := tdiff t.ttoStarted t.ttoStopped
    resolutionTime := tdiff t.ttoStopped t.ttrStopped }

def incidentURow (t : Ticket) : URow :=
  { teamId := t.teamId, agentId := t.agentId, startDate := t.startDate
    ticketType := "事件", status := t.status
    tto := t.tto100Passed, ttr := t.ttr100Passed
    responseTime := tdiff t.ttoStarted t.ttoStopped
    resolutionTime := tdiff t.ttoStopped t.ttrStopped }

/-- Change branch of the union: both SLA breach flags are hardcoded to 0 and
the response time to NULL; resolution time is `start_date → end_date`. -/
def changeURow (t : Ticket) : URow :=
  { teamId := t.teamId, agentId := t.agentId, startDate := t.startDate
    ticketType := "变更", status := t.status
    tto := false, ttr := false
    responseTime := none
    resolutionTime := some (t.endEpoch - t.startEpoch) }

/-- The `UNION ALL` subquery; each branch carries the same period and
`status <> 'new'` restrictions as the standalone breakdown queries. -/
def unionRows (db : DB) (s e : Date) : List URow :=
  (requestRows db s e).map requestURow ++
    (incidentRows db s e).map incidentURow ++
    (changeRows db s e).map changeURow

/-- Output row of `get_team_stats` / `get_person_stats`. -/
structure GroupStats where
  month : String
  groupName : String
  ticketType : String
  count : Nat
  resolvedCount : Nat
  unresolvedCount : Nat
  overdueCount : Nat
  resolutionRate : Option String
  timelinessRate : Option String
  avgResponseMin : Option String
  avgResolutionMin : Option String
  maxResponseMin : Option String
  maxResolutionMin : Option String
deriving DecidableEq, Repr

/-- Aggregates of one `(month, group, ticket type)` group.  The response-time
columns render the SQL `CASE WHEN ticket_type = '变更' THEN 'N/A' ELSE
ROUND(...)` at display level. -/
def mkGroupStats (ms gname ttype : String) (rows : List URow) : GroupStats :=
  let n := rows.length
  let unresolvedC := rows.countP fun r =>
    !(decide (r.status = "closed") || decide (r.status = "new") ||
      decide (r.status = "resolved"))
  let overdueC := rows.countP fun r => r.tto || r.ttr
  { month := ms, groupName := gname, ticketType := ttype
    count := n
    resolvedCount := rows.countP fun r =>
      decide (r.status = "closed") || decide (r.status = "resolved")
    unresolvedCount := unresolvedC
    overdueCount := overdueC
    resolutionRate :=
      if n = 0 then none
      else some (pctStr ((n : ℤ) - unresolvedC) n)
    timelinessRate :=
      if n = 0 then none
      else some (pctStr ((n : ℤ) - overdueC) n)
    avgResponseMin :=
      if ttype = "变更" then some "N/A"
      else avgMinStr (rows.filterMap URow.responseTime)
    avgResolutionMin := avgMinStr (rows.filterMap URow.resolutionTime)
    maxResponseMin :=
      if ttype = "变更" then some "N/A"
      else maxMinStr (rows.filterMap URow.responseTime)
    maxResolutionMin := maxMinStr (rows.filterMap URow.resolutionTime) }

/-- Models `JOIN contact c ON subquery.team_id = c.id WHERE
c.finalclass = 'Team'`:
pair each union row with its team name. -/
def teamJoined (db : DB) (s e : Date) : List (URow × String) :=
  (unionRows db s e).filterMap fun r =>
    match db.contacts.find? (fun c => decide (c.id = r.teamId)) with
    | some c => if c.finalclass = "Team" then some (r, c.name) else none
    | none => none

def teamKeyOf (rc : URow × String) : (Nat × Nat) × String × String :=
  (monthKey rc.1.startDate, rc.2, rc.1.ticketType)

/-- Models `get_team_stats` (row order of the SQL `ORDER BY` is not modelled; the
claims are order-insensitive). -/
def getTeamStats (db : DB) (s e : Date) : List GroupStats :=
  (((teamJoined db s e).map teamKeyOf).dedup).map fun k =>
    mkGroupStats (formatMonth k.1) k.2.1 k.2.2
      (((teamJoined db s e).filter fun rc => decide (teamKeyOf rc = k)).map
        Prod.fst)

/-- Models `agent_info`: `CONCAT(COALESCE(c1.name,''), ' ',
COALESCE(p1.first_name,''))` for persons present in both `person` and
`contact`. -/
def agentName (db : DB) (i : Nat) : Option String :=
  match db.persons.find? (fun p => decide (p.id = i)),
      db.contacts.find? (fun c => decide (c.id = i)) with
  | some p, some c => some (c.name ++ " " ++ p.firstName)
  | _, _ => none

def personJoined (db : DB) (s e : Date) : List (URow × String) :=
  (unionRows db s e).filterMap fun r =>
    (agentName db r.agentId).map fun nm => (r, nm)

def personKeyOf (rc : URow × String) : (Nat × Nat) × String × String :=
  (monthKey rc.1.startDate, rc.2, rc.1.ticketType)

/-- Models `get_person_stats`. -/
def getPersonStats (db : DB) (s e : Date) : List GroupStats :=
  (((personJoined db s e).map personKeyOf).dedup).map fun k =>
    mkGroupStats (formatMonth k.1) k.2.1 k.2.2
      (((personJoined db s e).filter fun rc => decide (personKeyOf rc = k)).map
        Prod.fst)

/-! Row-level listings: `get_unresolved_tickets` and `get_overdue_tickets`. -/

/-- Nullable test `x NOT IN ('closed','new','resolved')`. -/
def notInClosedNewResolved (o : Option Status) : Option Bool :=
  o.map fun st =>
    !(decide (st = "closed") || decide (st = "new") || decide (st = "resolved"))

/-- Ticket set of `get_unresolved_tickets`: period restricted, and the
three-way `OR` of per-class `NOT IN ('closed','new','resolved')` tests under
three-valued logic (a `Problem` ticket joins none of the three detail tables,
so all three tests are NULL and the row is dropped). -/
def unresolvedTicketRows (db : DB) (s e : Date) : List Ticket :=
  db.tickets.filter fun t =>
    inPeriod s e t &&
      sqlIsTrue (sqlOr
        (sqlOr (notInClosedNewResolved (trStatus t))
          (notInClosedNewResolved (tiStatus t)))
        (notInClosedNewResolved (cStatus t)))

/-- Models `CONCAT(IFNULL(c.name,''), ' ', IFNULL(p.first_name,''))`
for a person
reached through a `LEFT JOIN (person JOIN contact)`. -/
def personDisplay (db : DB) (i : Nat) : String :=
  match db.persons.find? (fun p => decide (p.id = i)),
      db.contacts.find? (fun c => decide (c.id = i)) with
  | some p, some c => c.name ++ " " ++ p.firstName
  | _, _ => " "

/-- The `contact.name` of the team, through a `LEFT JOIN`. -/
def teamDisplay (db : DB) (i : Nat) : Option String :=
  (db.contacts.find? (fun c => decide (c.id = i))).map Contact.name

/-- Output row of `get_unresolved_tickets`. -/
structure UnresolvedRow where
  ticketRef : String
  title : String
  startDate : Date
  status : Status
  requester : String
  teamName : Option String
  agent : String
deriving DecidableEq, Repr

def getUnresolvedTickets (db : DB) (s e : Date) : List UnresolvedRow :=
  (unresolvedTicketRows db s e).map fun t =>
    { ticketRef := t.ref, title := t.title, startDate := t.startDate
      status := t.status
      requester := personDisplay db t.callerId
      teamName := teamDisplay db t.teamId
      agent := personDisplay db t.agentId }

/-- MySQL string-to-boolean coercion used by `CASE WHEN tr.status THEN … END`:
the leading decimal digits of the string, which is 0 (FALSE) for every
alphabetic status value. -/
def mysqlTruthy (st : String) : Bool :=
  decide ((st.toList.takeWhile Char.isDigit).foldl
    (fun a c => a * 10 + (c.toNat - 48)) 0 ≠ 0)

/-- Ticket set of `get_overdue_tickets`: `ticket LEFT JOIN ticket_request`,
`finalclass <> 'Problem'`, either 100% SLA flag set, period restricted.
The flag tests are NULL for non-request tickets (no `ticket_request` row), so
only user requests survive; note there is no `status <> 'new'` filter. -/
def overdueTicketRows (db : DB) (s e : Date) : List Ticket :=
  db.tickets.filter fun t =>
    decide (t.finalclass ≠ .Problem) &&
      decide (t.finalclass = .UserRequest) &&
      (t.tto100Passed || t.ttr100Passed) && inPeriod s e t

/-- Output row of `get_overdue_tickets`.  Non-aggregated columns of the
`GROUP BY tr.status` take the first group member's values (MySQL picks an
arbitrary row for them). -/
structure OverdueRow where
  ticketRef : Option String
  title : Option String
  status : Status
  startDate : Option Date
  lastUpdate : Option Date
  ttoOverrunMin : Option ℤ
  ttrOverrunMin : Option ℤ
  requester : Option String
  teamName : Option String
  agent : Option String
  assignmentDate : Option Date
  resolutionDate : Option Date
  ttoDeadline : Option Date
  ttrDeadline : Option Date
  avgResponseMin : Option ℤ
  avgResolutionMin : Option ℤ
deriving DecidableEq, Repr

/-- One output row per status group.  Both the `发起人` and `办理人` columns
read the agent join (`c1`/`p1`) in the source `SELECT`. -/
def mkOverdueRow (db : DB) (st : Status) (grp : List Ticket) : OverdueRow :=
  let t0 := grp.head?
  { ticketRef := t0.bind fun t =>
      if mysqlTruthy t.status then some t.ref else none
    title := t0.map Ticket.title
    status := st
    startDate := t0.map Ticket.startDate
    lastUpdate := t0.map Ticket.lastUpdate
    ttoOverrunMin := t0.bind fun t => t.ttoOverrun.map minCents
    ttrOverrunMin := t0.bind fun t => t.ttrOverrun.map minCents
    requester := t0.bind fun t =>
      if mysqlTruthy t.status then some (personDisplay db t.agentId) else none
    teamName := t0.bind fun t =>
      if mysqlTruthy t.status then (teamDisplay db t.teamId).orElse
        (fun _ => some "") else none
    agent := t0.bind fun t =>
      if mysqlTruthy t.status then some (personDisplay db t.agentId) else none
    assignmentDate := t0.bind Ticket.assignmentDate
    resolutionDate := t0.bind Ticket.resolutionDate
    ttoDeadline := t0.bind Ticket.ttoDeadline
    ttrDeadline := t0.bind Ticket.ttrDeadline
    avgResponseMin :=
      avgMinCents (grp.filterMap fun t => tdiff t.ttoStarted t.ttoStopped)
    avgResolutionMin :=
      avgMinCents (grp.filterMap fun t => tdiff t.ttoStopped t.ttrStopped) }

/-- Models `get_overdue_tickets`: the breached tickets grouped by `tr.status` —
one output row per distinct status value, not per ticket. -/
def getOverdueTickets (db : DB) (s e : Date) : List OverdueRow :=
  let rows := overdueTicketRows db s e
  ((rows.map Ticket.status).dedup).map fun st =>
    mkOverdueRow db st (rows.filter fun t => decide (t.status = st))

/-! The two service-level KPI pivots (`get_infra_kpi_stats`,
`get_app_kpi_stats`): a discovery query collects the distinct service names
of the period, a pivot query aggregates per `(month, service)` and appends a
synthetic `总计` row. -/

/-- Models the `LEFT JOIN service s ON subquery.service_id = s.id`
name lookup. -/
def lookupName (table : List (Nat × String)) : Option Nat → Option String
  | none => none
  | some i => (table.find? (fun r => decide (r.1 = i))).map Prod.snd

/-- One row of the KPI union subquery after the service joins. -/
structure KpiRow where
  sName : Option String
  s2Name : Option String
  status : Status
  tto : Bool
  ttr : Bool
  month : Nat × Nat
deriving DecidableEq, Repr

/-- Tickets feeding the KPI queries: the union of in-scope requests and
incidents (the queries also restate `finalclass <> 'Problem'`, which the
class join already implies). -/
def kpiTicketRows (db : DB) (s e : Date) : List Ticket :=
  requestRows db s e ++ incidentRows db s e

def kpiSourceRows (db : DB) (s e : Date) : List KpiRow :=
  (kpiTicketRows db s e).map fun t =>
    { sName := lookupName db.services t.serviceId
      s2Name := lookupName db.subcategories t.subcategoryId
      status := t.status, tto := t.tto100Passed, ttr := t.ttr100Passed
      month := monthKey t.startDate }

/-- Models `WHERE s.name <> '应用'`: NULL service names fail the test and the row is
dropped (three-valued logic). -/
def infraKpiRows (db : DB) (s e : Date) : List KpiRow :=
  (kpiSourceRows db s e).filter fun r =>
    match r.sName with
    | some n => decide (n ≠ "应用")
    | none => false

/-- Models `WHERE s.name = '应用'`: likewise NULL names are dropped. -/
def appKpiRows (db : DB) (s e : Date) : List KpiRow :=
  (kpiSourceRows db s e).filter fun r =>
    match r.sName with
    | some n => decide (n = "应用")
    | none => false

/-- Infra discovery collapses with `COALESCE(s.name, COALESCE(s2.name,
'未分类'))` (service name first). -/
def infraServiceDiscovery (db : DB) (s e : Date) : List String :=
  ((infraKpiRows db s e).map fun r =>
    r.sName.getD (r.s2Name.getD "未分类")).dedup

/-- App discovery collapses with `COALESCE(s2.name, COALESCE(s.name,
'未分类'))` (sub-service name first). -/
def appServiceDiscovery (db : DB) (s e : Date) : List String :=
  ((appKpiRows db s e).map fun r =>
    r.s2Name.getD (r.sName.getD "未分类")).dedup

/-- Column list of the generated pivot query: `月份`, one generated column
per discovered service other than `未分类` (in discovery order), then the
fixed `未分类`, `KPI总计`, `工单总数`, `已解决` columns. -/
def kpiColumns (svcs : List String) : List String :=
  "月份" :: (svcs.filter (fun s => decide (s ≠ "未分类")) ++
    ["未分类", "KPI总计", "工单总数", "已解决"])

def infraKpiColumns (db : DB) (s e : Date) : List String :=
  kpiColumns (infraServiceDiscovery db s e)

def appKpiColumns (db : DB) (s e : Date) : List String :=
  kpiColumns (appServiceDiscovery db s e)

/-- Pivot-pass service name: `COALESCE(s2.name, COALESCE(s.name,
'未分类'))`. -/
def pivotName (r : KpiRow) : String :=
  r.s2Name.getD (r.sName.getD "未分类")

/-- The unresolved bucket: `status NOT IN ('closed','new','resolved')`. -/
def unresolvedBucket (st : Status) : Bool :=
  !(decide (st = "closed") || decide (st = "new") || decide (st = "resolved"))

/-- The KPI definition of "not resolved": `status NOT IN
('closed','new','resolved') OR ttr_100_passed = 1`. -/
def kpiUnresolvedOrBreached (r : KpiRow) : Bool :=
  unresolvedBucket r.status || r.ttr

/-- The stricter KPI notion of resolved: not in the unresolved bucket AND
not resolution-SLA-breached. -/
def kpiStrictResolved (r : KpiRow) : Bool :=
  !(unresolvedBucket r.status) && !r.ttr

def kpiMonthRows (rows : List KpiRow) (mo : Nat × Nat) : List KpiRow :=
  rows.filter fun r => decide (r.month = mo)

def kpiCellRows (rows : List KpiRow) (mo : Nat × Nat) (svc : String) :
    List KpiRow :=
  (kpiMonthRows rows mo).filter fun r => decide (pivotName r = svc)

/-- The `COUNT(*)` of one `(month, service)` group. -/
def kpiCellTotal (rows : List KpiRow) (mo : Nat × Nat) (svc : String) : Nat :=
  (kpiCellRows rows mo svc).length

/-- The `COUNT(*) - SUM(CASE WHEN status NOT IN ('closed','new','resolved') OR
ttr_100_passed = 1 THEN 1 ELSE 0 END)` of one `(month, service)` group. -/
def kpiCellResolved (rows : List KpiRow) (mo : Nat × Nat) (svc : String) :
    Nat :=
  kpiCellTotal rows mo svc -
    (kpiCellRows rows mo svc).countP kpiUnresolvedOrBreached

/-- Per-cell `ticket_resolution_rate` string (NULL on a zero total via
`NULLIF`). -/
def kpiCellRate (rows : List KpiRow) (mo : Nat × Nat) (svc : String) :
    Option String :=
  if kpiCellTotal rows mo svc = 0 then none
  else some (pctStr (kpiCellResolved rows mo svc : ℤ)
    (kpiCellTotal rows mo svc : ℤ))

/-- Distinct service names appearing in one month (the `tmp` rows the outer
query sums over). -/
def monthServiceNames (rows : List KpiRow) (mo : Nat × Nat) : List String :=
  ((kpiMonthRows rows mo).map pivotName).dedup

/-- The `SUM(tmp.工单总数)` of a month row: sum of the per-service totals. -/
def kpiMonthTotalCount (rows : List KpiRow) (mo : Nat × Nat) : Nat :=
  ((monthServiceNames rows mo).map (kpiCellTotal rows mo)).sum

/-- The `SUM(tmp.已解决)` of a month row: sum of the per-service resolved
counts. -/
def kpiMonthResolvedCount (rows : List KpiRow) (mo : Nat × Nat) : Nat :=
  ((monthServiceNames rows mo).map (kpiCellResolved rows mo)).sum

/-- The monthly `KPI总计` column:
`CONCAT(ROUND(SUM(已解决)/NULLIF(SUM(工单总数),0)*100.0,2),'%')`. -/
def kpiMonthRate (rows : List KpiRow) (mo : Nat × Nat) : Option String :=
  if kpiMonthTotalCount rows mo = 0 then none
  else some (pctStr (kpiMonthResolvedCount rows mo : ℤ)
    (kpiMonthTotalCount rows mo : ℤ))

/-- Distinct service names over the whole period (the `tmp1` grouping of the
synthetic `总计` row). -/
def allServiceNames (rows : List KpiRow) : List String :=
  (rows.map pivotName).dedup

/-- Per-service total over all months (`tmp1.total`). -/
def svcAllTotal (rows : List KpiRow) (svc : String) : Nat :=
  (rows.filter fun r => decide (pivotName r = svc)).length

/-- Per-service resolved count over all months (`tmp1.resolved`). -/
def svcAllResolved (rows : List KpiRow) (svc : String) : Nat :=
  svcAllTotal rows svc -
    (rows.filter fun r => decide (pivotName r = svc)).countP
      kpiUnresolvedOrBreached

/-- The `工单总数` of the `总计` row. -/
def kpiGrandTotalCount (rows : List KpiRow) : Nat :=
  ((allServiceNames rows).map (svcAllTotal rows)).sum

/-- The `已解决` of the `总计` row. -/
def kpiGrandResolvedCount (rows : List KpiRow) : Nat :=
  ((allServiceNames rows).map (svcAllResolved rows)).sum

/-- The `KPI总计` of the `总计` row. -/
def kpiGrandRate (rows : List KpiRow) : Option String :=
  if kpiGrandTotalCount rows = 0 then none
  else some (pctStr (kpiGrandResolvedCount rows : ℤ)
    (kpiGrandTotalCount rows : ℤ))

/-- The months present in the period's rows, in first-appearance order. -/
def kpiMonths (rows : List KpiRow) : List (Nat × Nat) :=
  (rows.map KpiRow.month).dedup

/-- The KPI pivot table as delivered to the renderers. -/
structure KpiTable where
  columns : List String
  months : List (Nat × Nat)
  monthRates : List (Option String)
  monthTotals : List Nat
  monthResolved : List Nat
  grandRate : Option String
  grandTotal : Nat
  grandResolved : Nat
deriving DecidableEq, Repr

def mkKpiTable (svcs : List String) (rows : List KpiRow) : KpiTable :=
  { columns := kpiColumns svcs
    months := kpiMonths rows
    monthRates := (kpiMonths rows).map (kpiMonthRate rows)
    monthTotals := (kpiMonths rows).map (kpiMonthTotalCount rows)
    monthResolved := (kpiMonths rows).map (kpiMonthResolvedCount rows)
    grandRate := kpiGrandRate rows
    grandTotal := kpiGrandTotalCount rows
    grandResolved := kpiGrandResolvedCount rows }

def getInfraKpiStats (db : DB) (s e : Date) : KpiTable :=
  mkKpiTable (infraServiceDiscovery db s e) (infraKpiRows db s e)

def getAppKpiStats (db : DB) (s e : Date) : KpiTable :=
  mkKpiTable (appServiceDiscovery db s e) (appKpiRows db s e)

/-! Rendering.  `main` computes every rollup once and feeds the same values
to the interactive view and to `generate_pdf`; the numeric content of the
two render paths is modelled below, each transcribed from its own source
(`itop_report.main` and `pdf_generator`). -/

/-- Numbers shown by a request/incident section: the four counts, the three
percentage strings (`{x:.2f}` rendering), and the pie-chart values. -/
structure ReqSectionNums where
  total : Nat
  resolved : Nat
  closed : Nat
  unresolved : Nat
  resolvedPct : String
  closedPct : String
  unresolvedPct : String
  pieValues : List Nat
deriving DecidableEq, Repr

/-- A section either renders its statistics or the "no activity" text. -/
inductive SectionOut
  | noActivity
  | out (n : ReqSectionNums)
deriving DecidableEq, Repr

/-- Interactive request/incident section (`main`): rates are guarded with
`if total > 0` / `if resolved > 0`, falling back to numeric 0. -/
def uiRequestSection (u : StatusBreakdown) : SectionOut :=
  if u.total > 0 then
    .out
      { total := u.total, resolved := u.resolved_total
        closed := u.closed_total, unresolved := u.unresolved_total
        resolvedPct :=
          if u.total > 0 then pctNum u.resolved_total u.total
          else fmt2c 0
        closedPct :=
          if u.resolved_total > 0 then pctNum u.closed_total u.resolved_total
          else fmt2c 0
        unresolvedPct :=
          if u.total > 0 then pctNum u.unresolved_total u.total
          else fmt2c 0
        pieValues := [u.resolved_total, u.unresolved_total, u.closed_total] }
  else .noActivity

/-- Document request/incident section (`_add_service_request_stats`): same
formulas; only the closed-of-resolved rate carries an explicit guard. -/
def pdfRequestSection (u : StatusBreakdown) : SectionOut :=
  if u.total > 0 then
    .out
      { total := u.total, resolved := u.resolved_total
        closed := u.closed_total, unresolved := u.unresolved_total
        resolvedPct := pctNum u.resolved_total u.total
        closedPct :=
          if u.resolved_total > 0 then pctNum u.closed_total u.resolved_total
          else fmt2c 0
        unresolvedPct := pctNum u.unresolved_total u.total
        pieValues := [u.resolved_total, u.unresolved_total, u.closed_total] }
  else .noActivity

/-- Numbers shown by the change section. -/
structure ChgSectionNums where
  total : Nat
  resolved : Nat
  closed : Nat
  closedPct : String
  resolvedPct : String
  pieValues : List Nat
deriving DecidableEq, Repr

inductive ChgSectionOut
  | noActivity
  | out (n : ChgSectionNums)
deriving DecidableEq, Repr

/-- Interactive change section: closed-of-total, then resolved-of-closed. -/
def uiChangeSection (u : StatusBreakdown) : ChgSectionOut :=
  if u.total > 0 then
    .out
      { total := u.total, resolved := u.resolved_total
        closed := u.closed_total
        closedPct :=
          if u.total > 0 then pctNum u.closed_total u.total
          else fmt2c 0
        resolvedPct :=
          if u.closed_total > 0 then pctNum u.resolved_total u.closed_total
          else fmt2c 0
        pieValues := [u.resolved_total, u.total - u.resolved_total] }
  else .noActivity

/-- Document change section. -/
def pdfChangeSection (u : StatusBreakdown) : ChgSectionOut :=
  if u.total > 0 then
    .out
      { total := u.total, resolved := u.resolved_total
        closed := u.closed_total
        closedPct := pctNum u.closed_total u.total
        resolvedPct :=
          if u.closed_total > 0 then pctNum u.resolved_total u.closed_total
          else fmt2c 0
        pieValues := [u.resolved_total, u.total - u.resolved_total] }
  else .noActivity

/-- All rollup tables, computed once per invocation in `main` and passed to
both render paths. -/
structure Rollups where
  ticketSummary : TicketSummary
  userRequestStats : StatusBreakdown
  incidentStats : StatusBreakdown
  changeStats : StatusBreakdown
  teamStats : List GroupStats
  personStats : List GroupStats
  unresolvedTickets : List UnresolvedRow
  overdueTickets : List OverdueRow
  infraKpiStats : KpiTable
  appKpiStats : KpiTable
deriving DecidableEq, Repr

def mainRollups (db : DB) (s e : Date) : Rollups :=
  { ticketSummary := getTicketSummary db s e
    userRequestStats := getUserRequestStats db s e
    incidentStats := getIncidentStats db s e
    changeStats := getChangeStats db s e
    teamStats := getTeamStats db s e
    personStats := getPersonStats db s e
    unresolvedTickets := getUnresolvedTickets db s e
    overdueTickets := getOverdueTickets db s e
    infraKpiStats := getInfraKpiStats db s e
    appKpiStats := getAppKpiStats db s e }

/-- The numeric content of one rendered report: headline total, the three
status sections, and the tabular rollups shown verbatim. -/
structure ViewNums where
  summaryTotal : Nat
  requestSection : SectionOut
  incidentSection : SectionOut
  changeSection : ChgSectionOut
  teamTable : List GroupStats
  personTable : List GroupStats
  unresolvedTable : List UnresolvedRow
  overdueTable : List OverdueRow
  infraKpiTable : KpiTable
  appKpiTable : KpiTable
deriving DecidableEq, Repr

/-- Numeric content of the interactive view (`main`). -/
def interactiveView (r : Rollups) : ViewNums :=
  { summaryTotal := r.ticketSummary.total
    requestSection := uiRequestSection r.userRequestStats
    incidentSection := uiRequestSection r.incidentStats
    changeSection := uiChangeSection r.changeStats
    teamTable := r.teamStats
    personTable := r.personStats
    unresolvedTable := r.unresolvedTickets
    overdueTable := r.overdueTickets
    infraKpiTable := r.infraKpiStats
    appKpiTable := r.appKpiStats }

/-- Numeric content of the exported document (`generate_pdf`). -/
def documentView (r : Rollups) : ViewNums :=
  { summaryTotal := r.ticketSummary.total
    requestSection := pdfRequestSection r.userRequestStats
    incidentSection := pdfRequestSection r.incidentStats
    changeSection := pdfChangeSection r.changeStats
    teamTable := r.teamStats
    personTable := r.personStats
    unresolvedTable := r.unresolvedTickets
    overdueTable := r.overdueTickets
    infraKpiTable := r.infraKpiStats
    appKpiTable := r.appKpiStats }

/-! Concrete databases used to exercise the rollups on explicit inputs. -/

def exStart : Date := ⟨2025, 1, 1⟩

def exEnd : Date := ⟨2025, 2, 1⟩

/-- A default in-scope user request; examples override what they need. -/
def baseTicket : Ticket :=
  { id := 0, ref := "R-000000", title := "工单", finalclass := .UserRequest
    status := "closed", startDate := ⟨2025, 1, 10⟩
    lastUpdate := ⟨2025, 1, 20⟩, startEpoch := 0, endEpoch := 3600
    teamId := 1, agentId := 2, callerId := 3, approverId := 4
    serviceId := none, subcategoryId := none
    tto100Passed := false, ttr100Passed := false
    ttoOverrun := none, ttrOverrun := none
    ttoStarted := some 0, ttoStopped := some 600, ttrStopped := some 3000
    assignmentDate := none, resolutionDate := none
    ttoDeadline := none, ttrDeadline := none }

def mkReq (i : Nat) (st : Status) : Ticket :=
  { baseTicket with id := i, status := st }

/-- Ten in-scope requests: six closed, two resolved, two assigned. -/
def scenarioDB : DB :=
  { tickets :=
      [mkReq 1 "closed", mkReq 2 "closed", mkReq 3 "closed",
        mkReq 4 "closed", mkReq 5 "closed", mkReq 6 "closed",
        mkReq 7 "resolved", mkReq 8 "resolved",
        mkReq 9 "assigned", mkReq 10 "assigned"]
    services := [], subcategories := [], contacts := [], persons := [] }

/-- One in-scope request that is not resolved: total 1, resolved 0. -/
def zeroResolvedDB : DB :=
  { tickets := [mkReq 1 "assigned"]
    services := [], subcategories := [], contacts := [], persons := [] }

/-- One `new`-status request whose response SLA is already breached. -/
def newBreachedDB : DB :=
  { tickets := [{ baseTicket with status := "new", tto100Passed := true }]
    services := [], subcategories := [], contacts := [], persons := [] }

/-- Two breached requests sharing the status `assigned`. -/
def dupStatusDB : DB :=
  { tickets :=
      [{ baseTicket with
          id := 1, ref := "R-000001", status := "assigned"
          tto100Passed := true, ttoOverrun := some 600 },
        { baseTicket with
          id := 2, ref := "R-000002", status := "assigned"
          ttr100Passed := true, ttrOverrun := some 1200 }]
    services := [], subcategories := [], contacts := [], persons := [] }

/-- One in-scope request whose service reference resolves to nothing. -/
def unresolvableServiceDB : DB :=
  { tickets := [{ baseTicket with
      id := 1, status := "assigned"
      serviceId := some 99, subcategoryId := none }]
    services := [(1, "网络")], subcategories := [], contacts := []
    persons := [] }

/-- Requests/incidents referencing the infra services 网络 and 存储. -/
def kpiDB : DB :=
  { tickets :=
      [{ baseTicket with id := 1, serviceId := some 1 },
        { baseTicket with
          id := 2, finalclass := .Incident
          status := "assigned", serviceId := some 2 },
        { baseTicket with
          id := 3, serviceId := some 1
          ttr100Passed := true }]
    services := [(1, "网络"), (2, "存储"), (9, "应用")]
    subcategories := [], contacts := [], persons := [] }

/-- The KPI row produced by ticket 1 of `kpiDB`. -/
def kpiDBRow : KpiRow :=
  { sName := some "网络", s2Name := none, status := "closed"
    tto := false, ttr := false, month := (2025, 1) }

/-- One in-scope change handled by team 运维组 and agent 张三. -/
def changeDB : DB :=
  { tickets :=
      [{ baseTicket with
          id := 1, finalclass := .Change
          status := "implemented" }]
    services := [], subcategories := []
    contacts := [⟨1, "运维组", "Team"⟩, ⟨2, "张", "Person"⟩]
    persons := [⟨2, "三"⟩] }

/-- The section numbers rendered for `zeroResolvedDB`. -/
def zeroResolvedNums : ReqSectionNums :=
  ⟨1, 0, 0, 1, "0.00", "0.00", "100.00", [0, 1, 0]⟩

/-- The team-stats group that `changeDB` produces. -/
def changeDBGroup : GroupStats :=
  mkGroupStats "2025年01月" "运维组" "变更"
    [changeURow { baseTicket with
      id := 1, finalclass := .Change
      status := "implemented" }]

/-! General counting lemmas shared by the rollup proofs. -/

/-- A list splits into the elements satisfying `p` and those refuting it. -/
theorem length_eq_countP_add_countP_not {α : Type _} (p : α → Bool)
    (l : List α) : l.length = l.countP p + l.countP (fun a => !(p a)) := by
  induction l with
  | nil => rfl
  | cons a t ih =>
    rw [List.length_cons, List.countP_cons, List.countP_cons]
    cases h : p a <;> simp [h] <;> omega

/-- Summing an indicator over a duplicate-free key list that contains the
key yields the indicated value once. -/
theorem sum_map_ite_eq {κ : Type _} [DecidableEq κ] {keys : List κ} {k0 : κ}
    (c : Nat) (hnd : keys.Nodup) (hk : k0 ∈ keys) :
    (keys.map (fun k => if k0 = k then c else 0)).sum = c := by
  induction keys with
  | nil => cases hk
  | cons b t ih =>
    rw [List.map_cons, List.sum_cons]
    rw [List.nodup_cons] at hnd
    rcases List.mem_cons.mp hk with h | h
    · subst h
      rw [if_pos rfl]
      have hz : (t.map (fun k => if k0 = k then c else 0)).sum = 0 := by
        apply List.sum_eq_zero
        intro x hx
        rcases List.mem_map.mp hx with ⟨k, hkt, rfl⟩
        rw [if_neg]
        rintro rfl
        exact hnd.1 hkt
      rw [hz, Nat.add_zero]
    · have hb : k0 ≠ b := by rintro rfl; exact hnd.1 h
      rw [if_neg hb, ih hnd.2 h, Nat.zero_add]

/-- Partitioning a list by a key function and counting `q` inside every part
counts `q` over the whole list, for any duplicate-free covering key list. -/
theorem sum_countP_keys {α κ : Type _} [DecidableEq κ] (q : α → Bool)
    (f : α → κ) (keys : List κ) (hnd : keys.Nodup) :
    ∀ l : List α, (∀ x ∈ l, f x ∈ keys) →
      (keys.map
        (fun k => (l.filter (fun x => decide (f x = k))).countP q)).sum =
        l.countP q := by
  intro l
  induction l with
  | nil => intro _; simp
  | cons a t ih =>
    intro hmem
    have ht : ∀ x ∈ t, f x ∈ keys := fun x hx =>
      hmem x (List.mem_cons_of_mem a hx)
    have ha : f a ∈ keys := hmem a (List.mem_cons_self a t)
    have hstep : ∀ k : κ,
        ((a :: t).filter (fun x => decide (f x = k))).countP q =
          (t.filter (fun x => decide (f x = k))).countP q +
            (if f a = k then (if q a then 1 else 0) else 0) := by
      intro k
      by_cases hfk : f a = k
      · rw [List.filter_cons_of_pos (by simp [hfk]), List.countP_cons,
          if_pos hfk]
      · rw [List.filter_cons_of_neg (by simp [hfk]), if_neg hfk,
          Nat.add_zero]
    calc (keys.map
            (fun k => ((a :: t).filter
              (fun x => decide (f x = k))).countP q)).sum
        = (keys.map
            (fun k => (t.filter (fun x => decide (f x = k))).countP q +
              (if f a = k then (if q a then 1 else 0) else 0))).sum := by
          exact congrArg List.sum (List.map_congr_left fun k _ => hstep k)
      _ = (keys.map
            (fun k => (t.filter (fun x => decide (f x = k))).countP q)).sum +
            (keys.map
              (fun k => if f a = k then (if q a then 1 else 0) else 0)).sum :=
          List.sum_map_add
      _ = t.countP q + (if q a then 1 else 0) := by
          rw [ih ht, sum_map_ite_eq _ hnd ha]
      _ = (a :: t).countP q := by rw [List.countP_cons]

/-- Special case: keys are the deduplicated image of the list itself. -/
theorem sum_countP_dedup {α κ : Type _} [DecidableEq κ] (q : α → Bool)
    (f : α → κ) (l : List α) :
    (((l.map f).dedup).map
      (fun k => (l.filter (fun x => decide (f x = k))).countP q)).sum =
      l.countP q :=
  sum_countP_keys q f _ (List.nodup_dedup _) l fun _x hx =>
    List.mem_dedup.mpr (List.mem_map_of_mem f hx)

/-- Specialisation: partitioning by a key and summing part sizes recovers
the length. -/
theorem sum_length_partition {α κ : Type _} [DecidableEq κ] (f : α → κ)
    (l : List α) :
    (((l.map f).dedup).map
      (fun k => (l.filter (fun x => decide (f x = k))).length)).sum =
      l.length := by
  have h := sum_countP_dedup (fun _ => true) f l
  simpa [List.countP_true] using h

/-- The function `roundDiv` is the half-up rounding of the true rational
quotient. -/
theorem roundDiv_eq_round (a : ℤ) (b : ℕ) (hb : 0 < b) :
    roundDiv a (b : ℤ) = round ((a : ℚ) / (b : ℚ)) := by
  have hbq : ((b : ℚ)) ≠ 0 := by
    exact_mod_cast Nat.pos_iff_ne_zero.mp hb
  have h1 : (a : ℚ) / (b : ℚ) + 1 / 2 =
      (((2 * a + (b : ℤ)) : ℤ) : ℚ) / (((2 * b : ℕ)) : ℚ) := by
    push_cast
    field_simp
    ring
  rw [round_eq, h1, Rat.floor_intCast_div_natCast]
  unfold roundDiv
  congr 1


/-! Scope lemmas: what each rollup's row filter admits. -/

theorem requestRows_scope (db : DB) (s e : Date) :
    ∀ t ∈ requestRows db s e,
      t.finalclass = .UserRequest ∧ inPeriod s e t = true ∧
        t.status ≠ "new" := by
  intro t ht
  have h := (List.mem_filter.mp ht).2
  simp only [Bool.and_eq_true, decide_eq_true_eq] at h
  exact ⟨h.1.1, h.1.2, h.2⟩

theorem incidentRows_scope (db : DB) (s e : Date) :
    ∀ t ∈ incidentRows db s e,
      t.finalclass = .Incident ∧ inPeriod s e t = true ∧
        t.status ≠ "new" := by
  intro t ht
  have h := (List.mem_filter.mp ht).2
  simp only [Bool.and_eq_true, decide_eq_true_eq] at h
  exact ⟨h.1.1, h.1.2, h.2⟩

theorem changeRows_scope (db : DB) (s e : Date) :
    ∀ t ∈ changeRows db s e,
      t.finalclass = .Change ∧ inPeriod s e t = true ∧
        t.status ≠ "new" := by
  intro t ht
  have h := (List.mem_filter.mp ht).2
  simp only [Bool.and_eq_true, decide_eq_true_eq] at h
  exact ⟨h.1.1, h.1.2, h.2⟩

theorem summaryRows_scope (db : DB) (s e : Date) :
    ∀ t ∈ summaryRows db s e,
      inPeriod s e t = true ∧ t.finalclass ≠ .Problem ∧
        t.status ≠ "new" := by
  intro t ht
  have h := (List.mem_filter.mp ht).2
  simp only [Bool.and_eq_true, decide_eq_true_eq] at h
  obtain ⟨⟨hP, hper⟩, hOr⟩ := h
  refine ⟨hper, hP, ?_⟩
  intro hnew
  cases hfc : t.finalclass <;>
    simp [trStatus, tiStatus, cStatus, neqNew, sqlOr, sqlIsTrue, hfc,
      hnew] at hOr

theorem unresolvedRows_scope (db : DB) (s e : Date) :
    ∀ t ∈ unresolvedTicketRows db s e,
      inPeriod s e t = true ∧ t.finalclass ≠ .Problem ∧
        t.status ≠ "new" := by
  intro t ht
  have h := (List.mem_filter.mp ht).2
  simp only [Bool.and_eq_true] at h
  obtain ⟨hper, hOr⟩ := h
  refine ⟨hper, ?_, ?_⟩
  · intro hfc
    simp [trStatus, tiStatus, cStatus, notInClosedNewResolved, sqlOr,
      sqlIsTrue, hfc] at hOr
  · intro hnew
    cases hfc : t.finalclass <;>
      simp [trStatus, tiStatus, cStatus, notInClosedNewResolved, sqlOr,
        sqlIsTrue, hfc, hnew] at hOr

theorem overdueRows_scope (db : DB) (s e : Date) :
    ∀ t ∈ overdueTicketRows db s e,
      t.finalclass = .UserRequest ∧ inPeriod s e t = true ∧
        (t.tto100Passed = true ∨ t.ttr100Passed = true) := by
  intro t ht
  have h := (List.mem_filter.mp ht).2
  simp only [Bool.and_eq_true, Bool.or_eq_true, decide_eq_true_eq] at h
  exact ⟨h.1.1.2, h.2, h.1.2⟩

theorem kpiTicketRows_scope (db : DB) (s e : Date) :
    ∀ t ∈ kpiTicketRows db s e,
      inPeriod s e t = true ∧ t.finalclass ≠ .Problem ∧
        t.status ≠ "new" := by
  intro t ht
  rcases List.mem_append.mp ht with h | h
  · obtain ⟨hfc, hper, hnew⟩ := requestRows_scope db s e t h
    exact ⟨hper, by simp [hfc], hnew⟩
  · obtain ⟨hfc, hper, hnew⟩ := incidentRows_scope db s e t h
    exact ⟨hper, by simp [hfc], hnew⟩

theorem unionRows_scope (db : DB) (s e : Date) :
    ∀ r ∈ unionRows db s e,
      Date.ble s r.startDate = true ∧ Date.blt r.startDate e = true ∧
        r.status ≠ "new" := by
  intro r hr
  rcases List.mem_append.mp hr with h | h
  · rcases List.mem_append.mp h with h1 | h1
    · rcases List.mem_map.mp h1 with ⟨t, ht, rfl⟩
      obtain ⟨_, hper, hnew⟩ := requestRows_scope db s e t ht
      simp only [inPeriod, Bool.and_eq_true] at hper
      exact ⟨hper.1, hper.2, hnew⟩
    · rcases List.mem_map.mp h1 with ⟨t, ht, rfl⟩
      obtain ⟨_, hper, hnew⟩ := incidentRows_scope db s e t ht
      simp only [inPeriod, Bool.and_eq_true] at hper
      exact ⟨hper.1, hper.2, hnew⟩
  · rcases List.mem_map.mp h with ⟨t, ht, rfl⟩
    obtain ⟨_, hper, hnew⟩ := changeRows_scope db s e t ht
    simp only [inPeriod, Bool.and_eq_true] at hper
    exact ⟨hper.1, hper.2, hnew⟩

/-! Claim theorems. -/

/-- C3: in every StatusBreakdown rollup (requests, incidents, changes) over
any period, the total equals the resolved-bucket count plus the
unresolved-bucket count; `new`-status tickets are excluded from the row set
before any counter is computed. -/
theorem statusBreakdown_partition (db : DB) (s e : Date) :
    ((getUserRequestStats db s e).total =
      (getUserRequestStats db s e).resolved_total +
        (getUserRequestStats db s e).unresolved_total) ∧
    ((getIncidentStats db s e).total =
      (getIncidentStats db s e).resolved_total +
        (getIncidentStats db s e).unresolved_total) ∧
    ((getChangeStats db s e).total =
      (getChangeStats db s e).resolved_total +
        (getChangeStats db s e).unresolved_total) := by
  refine ⟨?_, ?_, ?_⟩ <;>
    exact length_eq_countP_add_countP_not _ _

/-- The interactive and document request/incident sections compute the same
numbers: the only syntactic difference is a redundant `total > 0` guard. -/
theorem uiRequestSection_eq_pdfRequestSection (u : StatusBreakdown) :
    uiRequestSection u = pdfRequestSection u := by
  unfold uiRequestSection pdfRequestSection
  by_cases h : u.total > 0 <;> simp [h]

/-- Likewise for the change section. -/
theorem uiChangeSection_eq_pdfChangeSection (u : StatusBreakdown) :
    uiChangeSection u = pdfChangeSection u := by
  unfold uiChangeSection pdfChangeSection
  by_cases h : u.total > 0 <;> simp [h]

/-- C9: both render paths consume the rollups computed once by `main`, and
every numeric value they show (headline count, section counts, rate strings,
tabular rollups) is identical in the interactive view and the exported
document. -/
theorem render_equivalence (db : DB) (s e : Date) :
    interactiveView (mainRollups db s e) = documentView (mainRollups db s e) := by
  unfold interactiveView documentView
  rw [uiRequestSection_eq_pdfRequestSection,
    uiRequestSection_eq_pdfRequestSection, uiChangeSection_eq_pdfChangeSection]

/-- C6: ten in-scope requests — eight resolved-bucket of which six closed,
two unresolved-bucket — and no incidents or changes yield the breakdown
`{total 10, resolved 8, closed 6, unresolved 2}`, rendered with
resolved 80.00% of total, closed 75.00% of resolved and unresolved 20.00%
of total. -/
theorem end_to_end_scenario :
    getUserRequestStats scenarioDB exStart exEnd = ⟨10, 8, 6, 2⟩ ∧
    getIncidentStats scenarioDB exStart exEnd = ⟨0, 0, 0, 0⟩ ∧
    getChangeStats scenarioDB exStart exEnd = ⟨0, 0, 0, 0⟩ ∧
    uiRequestSection (getUserRequestStats scenarioDB exStart exEnd) =
      .out ⟨10, 8, 6, 2, "80.00", "75.00", "20.00", [8, 2, 6]⟩ ∧
    pdfRequestSection (getUserRequestStats scenarioDB exStart exEnd) =
      .out ⟨10, 8, 6, 2, "80.00", "75.00", "20.00", [8, 2, 6]⟩ := by
  refine ⟨by decide, by decide, by decide, by decide, by decide⟩

/-- C4 is refuted on the code: with one in-scope `assigned` request the
closed-of-resolved denominator (`resolved_total`) is zero, yet the rendered
section shows the closed percentage as the numeric string `0.00` (displayed
`0.00%`), not an `N/A` marker. -/
theorem zero_denominator_counterexample :
    (getUserRequestStats zeroResolvedDB exStart exEnd).resolved_total = 0 ∧
    uiRequestSection (getUserRequestStats zeroResolvedDB exStart exEnd) =
      .out ⟨1, 0, 0, 1, "0.00", "0.00", "100.00", [0, 1, 0]⟩ ∧
    ("0.00" : String) ≠ "N/A" := by
  refine ⟨by decide, by decide, by decide⟩

/-- C5 is refuted on the code: the overdue rollup applies no `new`-status
exclusion, so a `new` request with a breached response SLA is listed. -/
theorem scope_exclusions_counterexample :
    (overdueTicketRows newBreachedDB exStart exEnd).map Ticket.status =
      ["new"] ∧
    (getOverdueTickets newBreachedDB exStart exEnd).length = 1 := by
  refine ⟨by decide, by decide⟩

/-- C7: the overdue query groups by `tr.status`, so two breached tickets
sharing a status collapse into a single output row (and the `CASE WHEN
tr.status` guard coerces the status string to 0, nulling the reference
column), instead of one row per breached ticket. -/
theorem overdue_grouping_failing_input :
    (overdueTicketRows dupStatusDB exStart exEnd).length = 2 ∧
    (getOverdueTickets dupStatusDB exStart exEnd).length = 1 ∧
    (getOverdueTickets dupStatusDB exStart exEnd).map OverdueRow.ticketRef =
      [none] := by
  refine ⟨by decide, by decide, by decide⟩

/-- C8 is refuted on the code: an in-scope request whose service reference
resolves to nothing fails the NULL-rejecting `s.name` filter of both KPI
queries, so it reaches neither the discovery pass nor any pivot bucket —
the `unclassified` bucket does not receive it. -/
theorem unclassified_bucket_counterexample :
    (kpiTicketRows unresolvableServiceDB exStart exEnd).length = 1 ∧
    lookupName unresolvableServiceDB.services (some 99) = none ∧
    infraKpiRows unresolvableServiceDB exStart exEnd = [] ∧
    appKpiRows unresolvableServiceDB exStart exEnd = [] ∧
    infraServiceDiscovery unresolvableServiceDB exStart exEnd = [] := by
  refine ⟨by decide, by decide, by decide, by decide, by decide⟩

/-- C5 (amended): every rollup restricts to the half-open period
`[start, end)` and never sees `Problem` tickets (explicitly or because the
class joins exclude them), and every rollup except the overdue listing also
excludes `new`-status tickets; the overdue listing filters only on class,
period and the SLA breach flags. -/
theorem scope_exclusions_amended (db : DB) (s e : Date) :
    (∀ t ∈ summaryRows db s e,
      inPeriod s e t = true ∧ t.finalclass ≠ .Problem ∧
        t.status ≠ "new") ∧
    (∀ t ∈ requestRows db s e,
      inPeriod s e t = true ∧ t.finalclass ≠ .Problem ∧
        t.status ≠ "new") ∧
    (∀ t ∈ incidentRows db s e,
      inPeriod s e t = true ∧ t.finalclass ≠ .Problem ∧
        t.status ≠ "new") ∧
    (∀ t ∈ changeRows db s e,
      inPeriod s e t = true ∧ t.finalclass ≠ .Problem ∧
        t.status ≠ "new") ∧
    (∀ t ∈ unresolvedTicketRows db s e,
      inPeriod s e t = true ∧ t.finalclass ≠ .Problem ∧
        t.status ≠ "new") ∧
    (∀ t ∈ kpiTicketRows db s e,
      inPeriod s e t = true ∧ t.finalclass ≠ .Problem ∧
        t.status ≠ "new") ∧
    (∀ r ∈ unionRows db s e,
      Date.ble s r.startDate = true ∧ Date.blt r.startDate e = true ∧
        r.status ≠ "new") ∧
    (∀ t ∈ overdueTicketRows db s e,
      inPeriod s e t = true ∧ t.finalclass ≠ .Problem) := by
  refine ⟨summaryRows_scope db s e, ?_, ?_, ?_, unresolvedRows_scope db s e,
    kpiTicketRows_scope db s e, unionRows_scope db s e, ?_⟩
  · intro t ht
    obtain ⟨hfc, hper, hnew⟩ := requestRows_scope db s e t ht
    exact ⟨hper, by simp [hfc], hnew⟩
  · intro t ht
    obtain ⟨hfc, hper, hnew⟩ := incidentRows_scope db s e t ht
    exact ⟨hper, by simp [hfc], hnew⟩
  · intro t ht
    obtain ⟨hfc, hper, hnew⟩ := changeRows_scope db s e t ht
    exact ⟨hper, by simp [hfc], hnew⟩
  · intro t ht
    obtain ⟨hfc, hper, _⟩ := overdueRows_scope db s e t ht
    exact ⟨hper, by simp [hfc]⟩

/-- Witness for the amended C5 theorem at a concrete database and ticket. -/
theorem scope_exclusions_amended_witness :
    inPeriod exStart exEnd (mkReq 1 "closed") = true ∧
      (mkReq 1 "closed").finalclass ≠ .Problem ∧
      (mkReq 1 "closed").status ≠ "new" :=
  (scope_exclusions_amended scenarioDB exStart exEnd).2.1 (mkReq 1 "closed")
    (by decide)

/-- C8 (amended): a request/incident whose service reference cannot be
resolved is dropped from both KPI pivots by the NULL-rejecting `s.name`
filter, so every surviving pivot row carries a resolved service name and the
literal `未分类` bucket never receives such tickets; the `未分类` column and
the total columns are nonetheless always present, and with zero discovered
services the table has exactly the month/unclassified/total columns. -/
theorem unclassified_bucket_amended (db : DB) (s e : Date) :
    (∀ r ∈ infraKpiRows db s e, r.sName.isSome = true) ∧
    (∀ r ∈ appKpiRows db s e, r.sName.isSome = true) ∧
    kpiColumns [] = ["月份", "未分类", "KPI总计", "工单总数", "已解决"] ∧
    (∀ svcs : List String, "未分类" ∈ kpiColumns svcs ∧
      "KPI总计" ∈ kpiColumns svcs ∧ "工单总数" ∈ kpiColumns svcs ∧
      "已解决" ∈ kpiColumns svcs) := by
  refine ⟨?_, ?_, rfl, ?_⟩
  · intro r hr
    have h := (List.mem_filter.mp hr).2
    cases hs : r.sName with
    | none => rw [hs] at h; cases h
    | some n => rfl
  · intro r hr
    have h := (List.mem_filter.mp hr).2
    cases hs : r.sName with
    | none => rw [hs] at h; cases h
    | some n => rfl
  · intro svcs
    refine ⟨?_, ?_, ?_, ?_⟩ <;> simp [kpiColumns]

/-- Witness for the amended C8 theorem at a concrete pivot row. -/
theorem unclassified_bucket_amended_witness :
    kpiDBRow.sName.isSome = true :=
  (unclassified_bucket_amended kpiDB exStart exEnd).1 kpiDBRow (by decide)

/-- C4 (amended): zero-denominator rates never raise a fault: with a zero
total the section renders the no-activity branch (no rate is shown), and the
SQL-side group rates are NULL on an empty group (the `NULLIF` guard); but
with a positive total and a zero resolved count the closed-of-resolved
percentage falls back to numeric 0 rendered `0.00` (shown as `0.00%`), not
to an `N/A` marker. -/
theorem zero_denominator_amended (db : DB) (s e : Date) :
    ((getUserRequestStats db s e).total = 0 →
      uiRequestSection (getUserRequestStats db s e) = .noActivity ∧
        pdfRequestSection (getUserRequestStats db s e) = .noActivity) ∧
    ((getUserRequestStats db s e).resolved_total = 0 →
      ∀ nums, uiRequestSection (getUserRequestStats db s e) = .out nums →
        nums.closedPct = "0.00") ∧
    (∀ ms gname ttype,
      (mkGroupStats ms gname ttype []).resolutionRate = none ∧
        (mkGroupStats ms gname ttype []).timelinessRate = none) := by
  refine ⟨?_, ?_, ?_⟩
  · intro h
    constructor <;> simp [uiRequestSection, pdfRequestSection, h]
  · intro h0 nums heq
    unfold uiRequestSection at heq
    by_cases ht : (getUserRequestStats db s e).total > 0
    · rw [if_pos ht] at heq
      cases heq
      simp [h0]
      decide
    · rw [if_neg ht] at heq
      cases heq
  · intro ms gname ttype
    constructor <;> simp [mkGroupStats]

/-- Witness for the amended C4 theorem: a concrete empty period and a
concrete period with a positive total and zero resolved count. -/
theorem zero_denominator_amended_witness :
    (uiRequestSection (getUserRequestStats scenarioDB exEnd exEnd) =
        .noActivity ∧
      pdfRequestSection (getUserRequestStats scenarioDB exEnd exEnd) =
        .noActivity) ∧
    zeroResolvedNums.closedPct = "0.00" :=
  ⟨(zero_denominator_amended scenarioDB exEnd exEnd).1 (by decide),
    (zero_denominator_amended zeroResolvedDB exStart exEnd).2.1 (by decide)
      zeroResolvedNums (by decide)⟩

/-- C1: the infra KPI pivot's column set is exactly determined by the
discovery pass: besides the fixed `月份`, `未分类`, `KPI总计`, `工单总数`
and `已解决` columns it has precisely one column per discovered
non-`未分类` service — membership is characterised exactly, the discovery
list is duplicate-free, and each such service contributes exactly one
column. -/
theorem kpi_pivot_columns (db : DB) (s e : Date) :
    (infraServiceDiscovery db s e).Nodup ∧
    (∀ c, c ∈ infraKpiColumns db s e ↔
      ((c ∈ infraServiceDiscovery db s e ∧ c ≠ "未分类") ∨
        c ∈ ["月份", "未分类", "KPI总计", "工单总数", "已解决"])) ∧
    (∀ c ∈ infraServiceDiscovery db s e, c ≠ "未分类" →
      c ∉ ["月份", "未分类", "KPI总计", "工单总数", "已解决"] →
      (infraKpiColumns db s e).count c = 1) := by
  refine ⟨List.nodup_dedup _, ?_, ?_⟩
  · intro c
    simp only [infraKpiColumns, kpiColumns, List.mem_cons, List.mem_append,
      List.mem_filter, decide_eq_true_eq, List.not_mem_nil, or_false]
    tauto
  · intro c hc hne hfix
    simp only [List.mem_cons, List.not_mem_nil, or_false] at hfix
    push_neg at hfix
    obtain ⟨h1, h2, h3, h4, h5⟩ := hfix
    unfold infraKpiColumns kpiColumns
    rw [List.count_cons, List.count_append]
    have hp : (fun st => decide (st ≠ "未分类")) c = true := by
      simp [hne]
    have hnd : (infraServiceDiscovery db s e).Nodup := List.nodup_dedup _
    rw [@List.count_filter String _ _ (fun st => decide (st ≠ "未分类")) c
        (infraServiceDiscovery db s e) hp,
      List.count_eq_one_of_mem hnd hc]
    have hz : List.count c ["未分类", "KPI总计", "工单总数", "已解决"] = 0 := by
      rw [List.count_eq_zero]
      simp only [List.mem_cons, List.not_mem_nil, or_false]
      push_neg
      exact ⟨h2, h3, h4, h5⟩
    rw [hz, if_neg (by simp only [beq_iff_eq]; exact fun hh => h1 hh.symm)]

/-- Witness for C1: discovery on `kpiDB` finds exactly 网络 and 存储, and
网络 yields exactly one column. -/
theorem kpi_pivot_columns_witness :
    (infraKpiColumns kpiDB exStart exEnd).count "网络" = 1 :=
  (kpi_pivot_columns kpiDB exStart exEnd).2.2 "网络" (by decide) (by decide)
    (by decide)

/-- Complement counting against the KPI "not resolved" test counts the
strict resolved predicate. -/
theorem countP_strict_of_sub (l : List KpiRow) :
    l.length - l.countP kpiUnresolvedOrBreached =
      l.countP kpiStrictResolved := by
  have h := length_eq_countP_add_countP_not kpiUnresolvedOrBreached l
  have h2 : l.countP (fun r => !(kpiUnresolvedOrBreached r)) =
      l.countP kpiStrictResolved := by
    apply List.countP_congr
    intro r _
    cases hu : unresolvedBucket r.status <;> cases ht : r.ttr <;>
      simp [kpiUnresolvedOrBreached, kpiStrictResolved, hu, ht]
  omega

theorem kpiCellResolved_eq_strict (rows : List KpiRow) (mo : Nat × Nat)
    (svc : String) :
    kpiCellResolved rows mo svc =
      (kpiCellRows rows mo svc).countP kpiStrictResolved := by
  unfold kpiCellResolved kpiCellTotal
  exact countP_strict_of_sub _

theorem kpiMonthTotalCount_eq_length (rows : List KpiRow) (mo : Nat × Nat) :
    kpiMonthTotalCount rows mo = (kpiMonthRows rows mo).length := by
  unfold kpiMonthTotalCount monthServiceNames kpiCellTotal kpiCellRows
  exact sum_length_partition pivotName (kpiMonthRows rows mo)

theorem kpiMonthResolvedCount_eq_strict (rows : List KpiRow)
    (mo : Nat × Nat) :
    kpiMonthResolvedCount rows mo =
      (kpiMonthRows rows mo).countP kpiStrictResolved := by
  unfold kpiMonthResolvedCount monthServiceNames
  have hcell : ∀ svc, kpiCellResolved rows mo svc =
      ((kpiMonthRows rows mo).filter
        (fun r => decide (pivotName r = svc))).countP kpiStrictResolved := by
    intro svc
    rw [kpiCellResolved_eq_strict]
    rfl
  rw [List.map_congr_left (fun svc _ => hcell svc)]
  exact sum_countP_dedup kpiStrictResolved pivotName (kpiMonthRows rows mo)

theorem kpiGrandTotalCount_eq_length (rows : List KpiRow) :
    kpiGrandTotalCount rows = rows.length := by
  unfold kpiGrandTotalCount allServiceNames svcAllTotal
  exact sum_length_partition pivotName rows

theorem kpiGrandResolvedCount_eq_strict (rows : List KpiRow) :
    kpiGrandResolvedCount rows = rows.countP kpiStrictResolved := by
  unfold kpiGrandResolvedCount allServiceNames
  have hsvc : ∀ svc, svcAllResolved rows svc =
      (rows.filter (fun r => decide (pivotName r = svc))).countP
        kpiStrictResolved := by
    intro svc
    unfold svcAllResolved svcAllTotal
    exact countP_strict_of_sub _
  rw [List.map_congr_left (fun svc _ => hsvc svc)]
  exact sum_countP_dedup kpiStrictResolved pivotName rows

theorem sum_months_total (rows : List KpiRow) :
    ((kpiMonths rows).map (kpiMonthTotalCount rows)).sum = rows.length := by
  have h : ∀ mo, kpiMonthTotalCount rows mo =
      (rows.filter (fun r => decide (r.month = mo))).length := by
    intro mo
    rw [kpiMonthTotalCount_eq_length]
    rfl
  rw [List.map_congr_left (fun mo _ => h mo)]
  unfold kpiMonths
  exact sum_length_partition KpiRow.month rows

theorem sum_months_resolved (rows : List KpiRow) :
    ((kpiMonths rows).map (kpiMonthResolvedCount rows)).sum =
      rows.countP kpiStrictResolved := by
  have h : ∀ mo, kpiMonthResolvedCount rows mo =
      (rows.filter (fun r => decide (r.month = mo))).countP
        kpiStrictResolved := by
    intro mo
    rw [kpiMonthResolvedCount_eq_strict]
    rfl
  rw [List.map_congr_left (fun mo _ => h mo)]
  unfold kpiMonths
  exact sum_countP_dedup kpiStrictResolved KpiRow.month rows

/-- C2: in both KPI tables the per-(month, service) resolved count is the
strict one (not in the unresolved bucket AND not resolution-SLA-breached);
the monthly `KPI总计` divides the per-service resolved sum by the
per-service total sum of that month, sums which equal the plain ticket
counts of the month (a count-weighted rate); and the synthetic `总计` row
aggregates the same counts across all months.  The last conjunct ties the
generic statements to the Infra and App tables as delivered. -/
theorem kpi_strict_resolved_weighted_total :
    (∀ (rows : List KpiRow) (mo : Nat × Nat) (svc : String),
      kpiCellResolved rows mo svc =
        (kpiCellRows rows mo svc).countP kpiStrictResolved) ∧
    (∀ (rows : List KpiRow) (mo : Nat × Nat),
      kpiMonthTotalCount rows mo = (kpiMonthRows rows mo).length ∧
      kpiMonthResolvedCount rows mo =
        (kpiMonthRows rows mo).countP kpiStrictResolved ∧
      (kpiMonthTotalCount rows mo ≠ 0 →
        kpiMonthRate rows mo =
          some (pctStr (kpiMonthResolvedCount rows mo : ℤ)
            (kpiMonthTotalCount rows mo : ℤ)))) ∧
    (∀ rows : List KpiRow,
      kpiGrandTotalCount rows =
        ((kpiMonths rows).map (kpiMonthTotalCount rows)).sum ∧
      kpiGrandResolvedCount rows =
        ((kpiMonths rows).map (kpiMonthResolvedCount rows)).sum) ∧
    (∀ (db : DB) (s e : Date),
      (getInfraKpiStats db s e).monthRates =
        (kpiMonths (infraKpiRows db s e)).map
          (kpiMonthRate (infraKpiRows db s e)) ∧
      (getAppKpiStats db s e).monthRates =
        (kpiMonths (appKpiRows db s e)).map
          (kpiMonthRate (appKpiRows db s e))) := by
  refine ⟨kpiCellResolved_eq_strict, ?_, ?_, fun db s e => ⟨rfl, rfl⟩⟩
  · intro rows mo
    refine ⟨kpiMonthTotalCount_eq_length rows mo,
      kpiMonthResolvedCount_eq_strict rows mo, ?_⟩
    intro h
    unfold kpiMonthRate
    rw [if_neg h]
  · intro rows
    constructor
    · rw [kpiGrandTotalCount_eq_length, sum_months_total]
    · rw [kpiGrandResolvedCount_eq_strict, sum_months_resolved]

/-- Witness for C2 at a concrete period with a non-zero monthly total. -/
theorem kpi_strict_resolved_weighted_total_witness :
    kpiMonthRate (infraKpiRows kpiDB exStart exEnd) (2025, 1) =
      some (pctStr
        (kpiMonthResolvedCount (infraKpiRows kpiDB exStart exEnd)
          (2025, 1) : ℤ)
        (kpiMonthTotalCount (infraKpiRows kpiDB exStart exEnd)
          (2025, 1) : ℤ)) :=
  (kpi_strict_resolved_weighted_total.2.1
    (infraKpiRows kpiDB exStart exEnd) (2025, 1)).2.2 (by decide)

/-- A 100% rate renders as `100.00%`. -/
theorem pctStr_self (n : ℤ) (hn : 0 < n) : pctStr n n = "100.00%" := by
  unfold pctStr pctNum roundDiv
  have h1 : 2 * (n * 10000) + n = n * 20001 := by ring
  have h2 : 2 * n = n * 2 := by ring
  rw [h1, h2, Int.mul_ediv_mul_of_pos _ _ hn]
  decide

/-- Union rows of type 变更 come from the change branch, whose SLA flags
are hardcoded to 0. -/
theorem unionRows_change_flags (db : DB) (s e : Date) :
    ∀ r ∈ unionRows db s e, r.ticketType = "变更" →
      r.tto = false ∧ r.ttr = false := by
  intro r hr hty
  rcases List.mem_append.mp hr with h | h
  · rcases List.mem_append.mp h with h1 | h1
    · rcases List.mem_map.mp h1 with ⟨t, _, rfl⟩
      simp [requestURow] at hty
    · rcases List.mem_map.mp h1 with ⟨t, _, rfl⟩
      simp [incidentURow] at hty
  · rcases List.mem_map.mp h with ⟨t, _, rfl⟩
    exact ⟨rfl, rfl⟩

/-- The first component of a team-join pair is a union row. -/
theorem teamJoined_fst (db : DB) (s e : Date) :
    ∀ rc ∈ teamJoined db s e, rc.1 ∈ unionRows db s e := by
  intro rc hrc
  rcases List.mem_filterMap.mp hrc with ⟨r0, hr0, hsome⟩
  rcases hfind : db.contacts.find? (fun c => decide (c.id = r0.teamId)) with
    _ | c
  · rw [hfind] at hsome
    cases hsome
  · rw [hfind] at hsome
    dsimp only at hsome
    by_cases hteam : c.finalclass = "Team"
    · rw [if_pos hteam] at hsome
      cases hsome
      exact hr0
    · rw [if_neg hteam] at hsome
      cases hsome

/-- The first component of an agent-join pair is a union row. -/
theorem personJoined_fst (db : DB) (s e : Date) :
    ∀ rc ∈ personJoined db s e, rc.1 ∈ unionRows db s e := by
  intro rc hrc
  rcases List.mem_filterMap.mp hrc with ⟨r0, hr0, hsome⟩
  rcases hfind : agentName db r0.agentId with _ | nm
  · rw [hfind] at hsome
    cases hsome
  · rw [hfind] at hsome
    dsimp only [Option.map] at hsome
    cases hsome
    exact hr0

/-- A nonempty group whose rows all have both SLA flags off reports zero
overdue tickets and a `100.00%` timeliness rate. -/
theorem mkGroupStats_no_overdue (ms gname ttype : String)
    (rows : List URow) (hne : rows ≠ [])
    (hflags : ∀ r ∈ rows, r.tto = false ∧ r.ttr = false) :
    (mkGroupStats ms gname ttype rows).overdueCount = 0 ∧
    (mkGroupStats ms gname ttype rows).timelinessRate = some "100.00%" := by
  have hover : (rows.countP fun r => r.tto || r.ttr) = 0 := by
    rw [List.countP_eq_zero]
    intro r hr
    obtain ⟨hf1, hf2⟩ := hflags r hr
    simp [hf1, hf2]
  have hn : rows.length ≠ 0 :=
    fun h0 => hne (List.length_eq_zero.mp h0)
  constructor
  · exact hover
  · show (if rows.length = 0 then none
      else some (pctStr ((rows.length : ℤ) -
        (rows.countP fun r => r.tto || r.ttr)) rows.length)) =
      some "100.00%"
    rw [if_neg hn, hover]
    norm_num
    exact pctStr_self _ (by exact_mod_cast Nat.pos_of_ne_zero hn)

/-- C10: every change-type group of the team and agent time statistics has
an overdue count of 0 and a timeliness rate of `100.00%`, because the union
subquery hardcodes both SLA breach flags to 0 for change tickets. -/
theorem change_groups_never_overdue (db : DB) (s e : Date) :
    (∀ g ∈ getTeamStats db s e, g.ticketType = "变更" →
      g.overdueCount = 0 ∧ g.timelinessRate = some "100.00%") ∧
    (∀ g ∈ getPersonStats db s e, g.ticketType = "变更" →
      g.overdueCount = 0 ∧ g.timelinessRate = some "100.00%") := by
  constructor
  · intro g hg hty
    rcases List.mem_map.mp hg with ⟨k, hk, rfl⟩
    have hty' : k.2.2 = "变更" := hty
    apply mkGroupStats_no_overdue
    · rcases List.mem_map.mp (List.mem_dedup.mp hk) with ⟨rc, hrc, hkey⟩
      exact List.ne_nil_of_mem (List.mem_map_of_mem Prod.fst
        (List.mem_filter.mpr ⟨hrc, decide_eq_true hkey⟩))
    · intro r hr
      rcases List.mem_map.mp hr with ⟨rc, hrc, rfl⟩
      have hmem : rc ∈ teamJoined db s e := (List.mem_filter.mp hrc).1
      have hkey : teamKeyOf rc = k := by
        have h := (List.mem_filter.mp hrc).2
        rwa [decide_eq_true_eq] at h
      have hty2 : rc.1.ticketType = "变更" := by
        have : (teamKeyOf rc).2.2 = k.2.2 := by rw [hkey]
        exact this.trans hty'
      exact unionRows_change_flags db s e rc.1
        (teamJoined_fst db s e rc hmem) hty2
  · intro g hg hty
    rcases List.mem_map.mp hg with ⟨k, hk, rfl⟩
    have hty' : k.2.2 = "变更" := hty
    apply mkGroupStats_no_overdue
    · rcases List.mem_map.mp (List.mem_dedup.mp hk) with ⟨rc, hrc, hkey⟩
      exact List.ne_nil_of_mem (List.mem_map_of_mem Prod.fst
        (List.mem_filter.mpr ⟨hrc, decide_eq_true hkey⟩))
    · intro r hr
      rcases List.mem_map.mp hr with ⟨rc, hrc, rfl⟩
      have hmem : rc ∈ personJoined db s e := (List.mem_filter.mp hrc).1
      have hkey : personKeyOf rc = k := by
        have h := (List.mem_filter.mp hrc).2
        rwa [decide_eq_true_eq] at h
      have hty2 : rc.1.ticketType = "变更" := by
        have : (personKeyOf rc).2.2 = k.2.2 := by rw [hkey]
        exact this.trans hty'
      exact unionRows_change_flags db s e rc.1
        (personJoined_fst db s e rc hmem) hty2

/-- Witness for C10 at the concrete change group of `changeDB`. -/
theorem change_groups_never_overdue_witness :
    changeDBGroup.overdueCount = 0 ∧
      changeDBGroup.timelinessRate = some "100.00%" :=
  (change_groups_never_overdue changeDB exStart exEnd).1 changeDBGroup
    (by decide) (by decide)

end ItopReport
